import Mathlib

/-!
Verification of the `applied_device` servo controller (src/src/lib.rs).

The Rust module drives one servo actuator over a register transport
(16-bit holding registers).  The shallow embedding below models the
controller state (`DevState`) explicitly: the monotonic clock (in
milliseconds, advanced only by the source's `thread::sleep` calls), the
trace of register reads and writes issued to the transport, the trace of
warning/error log lines, the two decoded-flag caches and the move cycle
counter.  A simulated transport is a pure function from (clock,
register address) to the raw value the device would answer; the
controller masks every answer to 16 bits, as the Rust `u16` values force.
Machine arithmetic is modelled on `Nat` with explicit `% 2 ^ 64`
(`U64`) where the Rust `u64` operations can wrap.
-/

set_option maxRecDepth 8000

namespace AppliedDevice

/-- `static ALARM_REG: u16 = 0`. -/
def ALARM_REG : Nat := 0

/-- `static STATUS_REG: u16 = 1`. -/
def STATUS_REG : Nat := 1

/-- `static ENCODER_POS_1_REG: u16 = 4`. -/
def ENCODER_POS_1_REG : Nat := 4

/-- `static ENCODER_POS_2_REG: u16 = 5`. -/
def ENCODER_POS_2_REG : Nat := 5

/-- `static MAX_REGISTER: u16 = 56`. -/
def MAX_REGISTER : Nat := 56

/-- `static MAX_32_BIT: u64 = 65536` (the source's name for the 16-bit radix). -/
def MAX_32_BIT : Nat := 65536

/-- `static MAX_HOMING_TIME: u64 = 60` (seconds). -/
def MAX_HOMING_TIME : Nat := 60

/-- `static MAX_MOVE_TIME: u64 = 30` (seconds). -/
def MAX_MOVE_TIME : Nat := 30

/-- `static ENCODER_POSITION_RANGE: u64 = 1000`. -/
def ENCODER_POSITION_RANGE : Nat := 1000

/-- `static ACCELERATION: u16 = 27`. -/
def ACCELERATION : Nat := 27

/-- `static DECELERATION: u16 = 28`. -/
def DECELERATION : Nat := 28

/-- `static VELOCITY: u16 = 29`. -/
def VELOCITY : Nat := 29

/-- `static DISTANCE_1: u16 = 30`. -/
def DISTANCE_1 : Nat := 30

/-- `static DISTANCE_2: u16 = 31`. -/
def DISTANCE_2 : Nat := 31

/-- `static EXECUTE_COMMAND: u16 = 124`. -/
def EXECUTE_COMMAND : Nat := 124

/-- `2 ^ 64`, the modulus of the Rust `u64` arithmetic. -/
def U64 : Nat := 2 ^ 64

/-- `pub static MOTOR_ENABLED: &str`. -/
def MOTOR_ENABLED : String := "Motor Enabled"

/-- `pub static TUNING: &str`. -/
def TUNING : String := "Tuning"

/-- `pub static FAULT: &str`. -/
def FAULT : String := "Fault"

/-- `pub static IN_POSITION: &str`. -/
def IN_POSITION : String := "In Position"

/-- `pub static MOVING: &str`. -/
def MOVING : String := "Moving"

/-- `pub static JOGGING: &str`. -/
def JOGGING : String := "Jogging"

/-- `pub static STOPPING: &str`. -/
def STOPPING : String := "Stopping"

/-- `pub static WAIT_FOR_INPUT: &str`. -/
def WAIT_FOR_INPUT : String := "Wait for Input"

/-- `pub static SAVING: &str`. -/
def SAVING : String := "Saving"

/-- `pub static ALARM: &str`. -/
def ALARM : String := "Alarm"

/-- `pub static HOMING: &str`. -/
def HOMING : String := "Homing"

/-- `pub static DELAY: &str`. -/
def DELAY : String := "Delay"

/-- `pub static WIZARD_RUNNING: &str`. -/
def WIZARD_RUNNING : String := "Wizard Running"

/-- `pub static INITIALIZING: &str`. -/
def INITIALIZING : String := "Initializing"

/-- `static ALARM_CODE_NAMES: &[&str]`, the 16 alarm names bound to bit
positions 0 to 15 of the alarm register, in source order. -/
def ALARM_CODE_NAMES : List String :=
  [r"Position Limit Error", r"CCW Limit Error", r"CW Limit Error",
   r"Over Temp Error", r"Internal Voltage Error", r"Over Voltage Error",
   r"Under Voltage Error", r"Over Current Error", r"Open Motor Winding Error",
   r"Bad Encoder Error", r"Comm Error", r"Bad Flash Error", r"No Move Error",
   r"Motor resistance out of range", r"Blank Q Segment", r"No Move"]

/-- `static STATUS_CODE_NAMES: &[&str]`, the 14 status names bound to bit
positions 0 to 13 of the status register, in source order. -/
def STATUS_CODE_NAMES : List String :=
  [MOTOR_ENABLED, TUNING, FAULT, IN_POSITION, MOVING, JOGGING, STOPPING,
   WAIT_FOR_INPUT, SAVING, ALARM, HOMING, DELAY, WIZARD_RUNNING, INITIALIZING]

/-- A simulated register transport: the raw value a holding-register read
returns, as a function of the controller's clock (milliseconds since
construction) and the register address.  The controller masks every
answer to 16 bits (`% 65536`), since the Rust transport yields `u16`. -/
abbrev Transport := Nat → Nat → Nat

/-- The observable state of one `AppliedDevice` controller: the clock
(milliseconds, advanced only by `thread::sleep`), the trace of register
addresses read, the trace of `(register, value)` pairs written, the trace
of warning/error log lines, the two decoded-flag caches `servo_status`
and `servo_alarm`, and `servo_cycle_count`. -/
structure DevState where
  clock : Nat
  reads : List Nat
  writes : List (Nat × Nat)
  warns : List String
  servo_status : List String
  servo_alarm : List String
  servo_cycle_count : Int
deriving Repr, DecidableEq

/-- The controller state right after a successful `AppliedDevice::new`:
`servo_status: Vec::new(), servo_alarm: Vec::new(), servo_cycle_count: 0`,
no I/O issued yet, clock at zero. -/
def initState : DevState :=
  { clock := 0, reads := [], writes := [], warns := [],
    servo_status := [], servo_alarm := [], servo_cycle_count := 0 }

/-- `std::thread::sleep(time::Duration::from_millis(ms))`: advances the
monotonic clock by `ms` milliseconds. -/
def sleep_ms (s : DevState) (ms : Nat) : DevState :=
  { s with clock := s.clock + ms }

/-- `pub fn write_register(&mut self, register: u16, value: u64)`:
`self.client.write_single_register(register, value as u16).unwrap()`.
The `as u16` cast truncates the value to 16 bits.  The successful-write
case; the `unwrap` panic on a transport error is modelled separately by
`write_register_io`. -/
def write_register (s : DevState) (register : Nat) (value : Nat) : DevState :=
  { s with writes := s.writes ++ [(register, value % 65536)] }

/-- `pub fn get_register_value(&mut self, register: u16) -> u64`: reads one
holding register and widens the `u16` answer to `u64`.  The successful-read
case; the `expect` panic on a transport error is modelled separately by
`get_register_value_io`. -/
def get_register_value (T : Transport) (s : DevState) (register : Nat) :
    Nat × DevState :=
  (T s.clock register % 65536, { s with reads := s.reads ++ [register] })

/-- `decode(high, low) -> position = low + high * 65536`: the join
`y as u64 + (x as u64 * MAX_32_BIT)` used by `get_encoder_count`. -/
def decodePosition (x y : Nat) : Nat :=
  y + x * MAX_32_BIT

/-- `encode(position) -> (high, low)`: the split
`(encoder_position / MAX_32_BIT, encoder_position % MAX_32_BIT)` used by
`move_servo` to fill the two distance registers. -/
def encodePosition (p : Nat) : Nat × Nat :=
  (p / MAX_32_BIT, p % MAX_32_BIT)

/-- `pub fn get_encoder_count(&mut self) -> u64`: reads the two encoder
registers (high word first) and joins them via the position codec. -/
def get_encoder_count (T : Transport) (s : DevState) : Nat × DevState :=
  let q1 := get_register_value T s ENCODER_POS_1_REG
  let q2 := get_register_value T q1.2 ENCODER_POS_2_REG
  (decodePosition q1.1 q2.1, q2.2)

/-- The status/alarm decoder: the source's
`for (i, name) in NAMES.iter().enumerate() { if read & (1 << i) != 0 { push(name) } }`
loop over an enumerated name table.  Returns the names whose bit is set,
in table order. -/
def decode_flags : List (Nat × String) → Nat → List String
  | [], _ => []
  | (i, name) :: rest, read =>
    if (read &&& (1 <<< i)) != 0 then name :: decode_flags rest read
    else decode_flags rest read

/-- `pub fn get_servo_status(&mut self) -> &Vec<String>`: reads the status
register, resets `servo_status` and pushes the decoded names into it,
returning the new cache. -/
def get_servo_status (T : Transport) (s : DevState) : List String × DevState :=
  let q := get_register_value T s STATUS_REG
  let s1 := { q.2 with servo_status := decode_flags STATUS_CODE_NAMES.enum q.1 }
  (s1.servo_status, s1)

/-- `pub fn get_servo_alarms(&mut self) -> &Vec<String>`, modelled exactly as
written: the source resets `servo_alarm` to a new vector but then pushes
each decoded alarm name onto `servo_status` (`self.servo_status.push(...)`)
— not onto `servo_alarm` — and returns the (now empty) `servo_alarm`. -/
def get_servo_alarms (T : Transport) (s : DevState) : List String × DevState :=
  let q := get_register_value T s ALARM_REG
  let s1 := { q.2 with servo_alarm := [] }
  let s2 := { s1 with
    servo_status := s1.servo_status ++ decode_flags ALARM_CODE_NAMES.enum q.1 }
  (s2.servo_alarm, s2)

/-- `pub fn in_range(&mut self, requested_pos: u64) -> bool`, the pure
comparison once the current encoder position is known.  The source computes
`min_pos = requested_pos - ENCODER_POSITION_RANGE` in `u64`; for
`requested_pos < 1000` that subtraction underflows (release builds wrap
modulo `2 ^ 64`, debug builds panic) — modelled here with the release
(wrapping) semantics, `(requested_pos + U64 - ENCODER_POSITION_RANGE) % U64`.
`max_pos = requested_pos + ENCODER_POSITION_RANGE` likewise wraps. -/
def in_range (requested_pos : Nat) (curr_pos : Nat) : Bool :=
  let min_pos := (requested_pos + U64 - ENCODER_POSITION_RANGE) % U64
  let max_pos := (requested_pos + ENCODER_POSITION_RANGE) % U64
  decide (min_pos ≤ curr_pos) && decide (curr_pos ≤ max_pos)

/-- `in_range` as the controller runs it: reads the current encoder
position through the transport, then compares. -/
def in_range_op (T : Transport) (s : DevState) (requested_pos : Nat) :
    Bool × DevState :=
  let q := get_encoder_count T s
  (in_range requested_pos q.1, q.2)

/-- The `warn!("Found alarm: {} or fault: {}, trying to reset", ..)` line. -/
def resetFoundWarn : String := "Found alarm or fault, trying to reset"

/-- The `warn!("!!Unable to reset alarm or fault!!")` line. -/
def resetFailWarn : String := "!!Unable to reset alarm or fault!!"

/-- The `warn!("Got alarm during homing.  Trying to reset.")` line. -/
def homingAlarmWarn : String := "Got alarm during homing.  Trying to reset."

/-- The `warn!("Restarting homing procedure.")` line. -/
def homingRestartWarn : String := "Restarting homing procedure."

/-- The `warn!("!!Unable to finish homing procedure!!")` line. -/
def homingFailWarn : String := "!!Unable to finish homing procedure!!"

/-- The `error!("!!Unable to finish requested move!!")` line. -/
def moveFailErr : String := "!!Unable to finish requested move!!"

/-- The `warn!("Unable to reach requested encoder position of {} (actual: {})", ..)` line. -/
def moveMissWarn : String := "Unable to reach requested encoder position"

/-- `pub fn enable_motor(&mut self)`: returns at once if `Motor Enabled` is
in the freshly read status; otherwise writes command code 159 to the
execute-command register and sleeps 1s, without re-reading the status. -/
def enable_motor (T : Transport) (s : DevState) : DevState :=
  let q := get_servo_status T s
  if q.1.contains MOTOR_ENABLED then q.2
  else sleep_ms (write_register q.2 EXECUTE_COMMAND 159) 1000

/-- `pub fn disable_motor(&mut self)`: writes command code 158 and sleeps 1s
only if `Motor Enabled` is in the freshly read status. -/
def disable_motor (T : Transport) (s : DevState) : DevState :=
  let q := get_servo_status T s
  if q.1.contains MOTOR_ENABLED then
    sleep_ms (write_register q.2 EXECUTE_COMMAND 158) 1000
  else q.2

/-- The `while alarm_present || fault_present` loop of
`reset_alarm_or_fault`, with the re-read flag values and the running
`try_count` as arguments.  Each pass warns, writes reset code 186 to the
execute-command register and sleeps 1s; if `try_count > 2` it warns and
returns (motor left un-enabled), else it increments `try_count` and
re-reads both flags.  On normal loop exit the source calls
`enable_motor`. -/
def resetLoop (T : Transport) (alarm_present fault_present : Bool)
    (try_count : Nat) (s : DevState) : DevState :=
  if alarm_present || fault_present then
    let s1 := { s with warns := s.warns ++ [resetFoundWarn] }
    let s2 := sleep_ms (write_register s1 EXECUTE_COMMAND 186) 1000
    if h : try_count > 2 then { s2 with warns := s2.warns ++ [resetFailWarn] }
    else
      let q1 := get_servo_status T s2
      let q2 := get_servo_status T q1.2
      resetLoop T (q1.1.contains ALARM) (q2.1.contains FAULT) (try_count + 1) q2.2
  else enable_motor T s
termination_by 4 - try_count
decreasing_by omega

/-- `pub fn reset_alarm_or_fault(&mut self)`: reads the status twice to get
the `Alarm` and `Fault` flags; if neither is present, enables the motor and
returns; otherwise runs the bounded reset loop. -/
def reset_alarm_or_fault (T : Transport) (s : DevState) : DevState :=
  let q1 := get_servo_status T s
  let alarm_present := q1.1.contains ALARM
  let q2 := get_servo_status T q1.2
  let fault_present := q2.1.contains FAULT
  if !alarm_present && !fault_present then enable_motor T q2.2
  else resetLoop T alarm_present fault_present 0 q2.2

/-- The `if self.get_servo_status().contains(ALARM)` recovery block inside
the homing poll loop: warn, run `reset_alarm_or_fault`, warn again, and
re-issue the mode-select/home-command pair (each followed by a 1s sleep). -/
def homeAlarmRestart (T : Transport) (s : DevState) : DevState :=
  let t1 := { s with warns := s.warns ++ [homingAlarmWarn] }
  let t2 := reset_alarm_or_fault T t1
  let t3 := { t2 with warns := t2.warns ++ [homingRestartWarn] }
  let t4 := sleep_ms (write_register t3 125 1) 1000
  sleep_ms (write_register t4 EXECUTE_COMMAND 120) 1000

/-- The body of one homing poll pass once `Homing` was seen: re-read the
status for the `info!` log and again for the alarm check, and on `Alarm`
run the `homeAlarmRestart` recovery block. -/
def homePollBody (T : Transport) (s : DevState) : DevState :=
  let qi := get_servo_status T s
  let qa := get_servo_status T qi.2
  if qa.1.contains ALARM then homeAlarmRestart T qa.2 else qa.2

/-- The `while self.get_servo_status().contains(HOMING)` poll loop of
`home_servo`, started at clock `start`.  Each pass reads the status; while
`Homing` is set it runs `homePollBody`, then, if the elapsed seconds
exceed `MAX_HOMING_TIME`, warns and returns, else sleeps 300ms and polls
again.  `fuel` bounds the number of passes only so the model is total;
`none` means the fuel ran out before the loop exited. -/
def homeLoop (T : Transport) (start : Nat) : Nat → DevState → Option DevState
  | 0, _ => none
  | fuel + 1, s =>
    let q := get_servo_status T s
    if q.1.contains HOMING then
      let s1 := homePollBody T q.2
      if (s1.clock - start) / 1000 > MAX_HOMING_TIME then
        some { s1 with warns := s1.warns ++ [homingFailWarn] }
      else homeLoop T start fuel (sleep_ms s1 300)
    else some q.2

/-- `pub fn home_servo(&mut self)`: resets any alarm/fault, writes
mode-select (register 125) = 1 and the home command 120 (1s sleep after
each), then polls `homeLoop` against the 60s homing deadline. -/
def home_servo (T : Transport) (fuel : Nat) (s : DevState) : Option DevState :=
  let s1 := reset_alarm_or_fault T s
  let s2 := sleep_ms (write_register s1 125 1) 1000
  let s3 := sleep_ms (write_register s2 EXECUTE_COMMAND 120) 1000
  homeLoop T s3.clock fuel s3

/-- The `while self.get_servo_status().contains(MOVING)` poll loop of
`move_servo`, started at clock `start`.  Each pass runs
`reset_alarm_or_fault`, breaks if `In Position` is in a fresh status read,
breaks with an error log once the elapsed seconds exceed `MAX_MOVE_TIME`,
else sleeps 300ms and polls again.  `fuel` bounds the number of passes
only so the model is total; `none` means the fuel ran out. -/
def moveLoop (T : Transport) (start : Nat) : Nat → DevState → Option DevState
  | 0, _ => none
  | fuel + 1, s =>
    let q := get_servo_status T s
    if q.1.contains MOVING then
      let s1 := reset_alarm_or_fault T q.2
      let q2 := get_servo_status T s1
      if q2.1.contains IN_POSITION then some q2.2
      else if (q2.2.clock - start) / 1000 > MAX_MOVE_TIME then
        some { q2.2 with warns := q2.2.warns ++ [moveFailErr] }
      else moveLoop T start fuel (sleep_ms q2.2 300)
    else some q.2

/-- The tail of `move_servo` after its poll loop: re-check the tolerance;
if still out of range, read the actual position for the warning log and
warn; otherwise increment `servo_cycle_count` and read the final position
for the info log. -/
def move_finish (T : Transport) (encoder_position : Nat) (s : DevState) :
    DevState :=
  let q := in_range_op T s encoder_position
  if !q.1 then
    let q2 := get_encoder_count T q.2
    { q2.2 with warns := q2.2.warns ++ [moveMissWarn] }
  else
    let s1 := { q.2 with servo_cycle_count := q.2.servo_cycle_count + 1 }
    (get_encoder_count T s1).2

/-- `pub fn move_servo(&mut self, accel, decel, velocity, encoder_position)`:
returns at once if the current encoder position is in range of the target;
otherwise splits the target via the position codec, resets any alarm/fault,
writes the five motion-parameter registers, sleeps 25ms, reads the two
distance registers back for the info log, writes move command 103, sleeps
10ms, polls `moveLoop` against the 30s move deadline, and finishes with the
tolerance re-check.  `none` means the poll loop's fuel ran out. -/
def move_servo (T : Transport) (accel decel velocity encoder_position : Nat)
    (fuel : Nat) (s : DevState) : Option DevState :=
  let q := in_range_op T s encoder_position
  if q.1 then some q.2
  else
    let mv := encodePosition encoder_position
    let s1 := reset_alarm_or_fault T q.2
    let s2 := write_register s1 ACCELERATION accel
    let s3 := write_register s2 DECELERATION decel
    let s4 := write_register s3 VELOCITY velocity
    let s5 := write_register s4 DISTANCE_1 mv.1
    let s6 := write_register s5 DISTANCE_2 mv.2
    let s7 := sleep_ms s6 25
    let r1 := get_register_value T s7 DISTANCE_1
    let r2 := get_register_value T r1.2 DISTANCE_2
    let s8 := sleep_ms (write_register r2.2 EXECUTE_COMMAND 103) 10
    match moveLoop T s8.clock fuel s8 with
    | none => none
    | some s9 => some (move_finish T encoder_position s9)

/-- `pub fn initialize(&mut self)`: fire-and-forget mode-select = 1 and home
command 120, each followed by a 1s sleep.  (Named `initialise` here only
because of a lexical clash; it models the source's `initialize`.) -/
def initialise (s : DevState) : DevState :=
  let s1 := sleep_ms (write_register s 125 1) 1000
  sleep_ms (write_register s1 EXECUTE_COMMAND 120) 1000

/-- `pub fn shutdown(&mut self)`: the disconnect handshake — mode-select = 1,
disconnect 254, mode-select = 0, disconnect 254, a 10ms sleep after each. -/
def shutdown (s : DevState) : DevState :=
  let s1 := sleep_ms (write_register s 125 1) 10
  let s2 := sleep_ms (write_register s1 EXECUTE_COMMAND 254) 10
  let s3 := sleep_ms (write_register s2 125 0) 10
  sleep_ms (write_register s3 EXECUTE_COMMAND 254) 10

/-- `pub fn dump_registers(&mut self)`: one block read of registers 0 up to
`MAX_REGISTER`, logged for diagnostics; recorded in the read trace as the
56 addresses of the block. -/
def dump_registers (s : DevState) : DevState :=
  { s with reads := s.reads ++ List.range MAX_REGISTER }

/-- The result of a Rust call that can panic: `ok` a value, or `panicked`
with the panic message.  A panic propagates out of the controller (there is
no `catch_unwind` anywhere in the module), killing the calling thread and,
in the shipped binary, the process. -/
inductive PanicOr (α : Type) where
  | panicked : String → PanicOr α
  | ok : α → PanicOr α
deriving Repr, DecidableEq

/-- The message `expect("IO Error")` attaches in `get_register_value`. -/
def ioErrorMsg : String := "IO Error"

/-- The message of `Result::unwrap` on an `Err` in `write_register`. -/
def unwrapErrMsg : String := "called unwrap on an Err value"

/-- The I/O layer of `write_register`: the transport's
`write_single_register(..)` result is `.unwrap()`-ed, so a transport I/O
error (`none`) panics instead of being returned to the caller. -/
def write_register_io (res : Option Unit) : PanicOr Unit :=
  match res with
  | none => PanicOr.panicked unwrapErrMsg
  | some _ => PanicOr.ok ()

/-- The I/O layer of `get_register_value`: the transport's
`read_holding_registers(register, 1)` result is `.expect("IO Error")`-ed,
so a transport I/O error (`none`) panics; a successful but empty answer
falls back to 0 via `.first().unwrap_or(&0)`. -/
def get_register_value_io (res : Option (List Nat)) : PanicOr Nat :=
  match res with
  | none => PanicOr.panicked ioErrorMsg
  | some regs => PanicOr.ok (regs.headD 0 % 65536)

/-- A simulated transport whose every register reads as 0. -/
def Tzero : Transport := fun _ _ => 0

/-- A simulated transport that always reports status raw value 512
(bit 9, the `Alarm` flag) and all other registers as 0. -/
def Talarm : Transport := fun _ r => if r = STATUS_REG then 512 else 0

/-- A simulated transport whose alarm register reads raw value 1 (bit 0,
`Position Limit Error`) and all other registers as 0. -/
def TalarmOne : Transport := fun _ r => if r = ALARM_REG then 1 else 0

/-- A simulated transport whose status register reads raw value 1 (bit 0,
the `Motor Enabled` flag) and all other registers as 0. -/
def Tenabled : Transport := fun _ r => if r = STATUS_REG then 1 else 0

/-- A simulated transport whose encoder reads position 2000
(high word 0, low word 2000) and all other registers as 0. -/
def Tpos2000 : Transport := fun _ r => if r = ENCODER_POS_2_REG then 2000 else 0

/-- A simulated transport that always reports status raw value 1024
(bit 10, the `Homing` flag) and all other registers as 0. -/
def Thoming : Transport := fun _ r => if r = STATUS_REG then 1024 else 0

/-- A controller state whose status cache already holds one decoded flag,
to watch what `get_servo_alarms` does to a non-empty status cache. -/
def statePriorStatus : DevState :=
  { initState with servo_status := [FAULT] }

/-- The frame facts every controller operation respects: the cycle counter
is untouched, the clock never runs backwards, and the warning log only
grows by appending. -/
def FrameStep (s s1 : DevState) : Prop :=
  s1.servo_cycle_count = s.servo_cycle_count
  ∧ s.clock ≤ s1.clock
  ∧ List.IsPrefix s.warns s1.warns

/-- `U64` as a numeral, for `omega`. -/
theorem U64_eq : U64 = 18446744073709551616 := by norm_num [U64]

/-- C3: for every position `p` in `[0, 2^32)`, splitting `p` into the
(high, low) register pair that `move_servo` writes to the distance
registers and joining the pair back with the decode `get_encoder_count`
uses yields `p` again. -/
theorem C3_codec_roundtrip (p : Nat) (h : p < 2 ^ 32) :
    decodePosition (encodePosition p).1 (encodePosition p).2 = p := by
  simp only [decodePosition, encodePosition, MAX_32_BIT]
  omega

/-- Witness for C3 at the spec's own example: target position 131082 splits
into the register pair (2, 10) and joins back to 131082. -/
theorem C3_codec_roundtrip_witness :
    131082 < 2 ^ 32
    ∧ encodePosition 131082 = (2, 10)
    ∧ decodePosition (encodePosition 131082).1 (encodePosition 131082).2 = 131082 :=
  ⟨by norm_num, by decide, C3_codec_roundtrip 131082 (by norm_num)⟩

/-- C4 counterexample: with requested position 0 and current position 0 the
current position lies inside the mathematical window `0 ± 1000`, yet
`in_range` answers `false`, because the `u64` lower bound
`requested_pos - 1000` wrapped around. -/
theorem C4_in_range_counterexample :
    in_range 0 0 = false
    ∧ ((0 : Int) - 1000 ≤ (0 : Int) ∧ (0 : Int) ≤ (0 : Int) + 1000) :=
  ⟨by decide, by norm_num⟩

/-- C4 (amended): for every target with `1000 ≤ target` and
`target + 1000 < 2 ^ 64`, and every representable current position,
`in_range` decides exactly the window `target - 1000 ≤ current ≤
target + 1000`; both boundaries are in range, and one step beyond either
boundary (where representable) is not.  For `target < 1000` the `u64`
subtraction in the source underflows (see the C10 theorem), which is what
forces the added lower bound, and `target + 1000` must not wrap either. -/
theorem C4_in_range_window (t c : Nat) (h1 : 1000 ≤ t) (h2 : t + 1000 < U64)
    (h3 : c < U64) :
    (in_range t c = true ↔ (t - 1000 ≤ c ∧ c ≤ t + 1000))
    ∧ in_range t (t - 1000) = true
    ∧ in_range t (t + 1000) = true
    ∧ (1001 ≤ t → in_range t (t - 1001) = false)
    ∧ (t + 1001 < U64 → in_range t (t + 1001) = false) := by
  rw [U64_eq] at h2 h3
  have hmin : (t + U64 - ENCODER_POSITION_RANGE) % U64 = t - 1000 := by
    rw [U64_eq]; simp only [ENCODER_POSITION_RANGE]; omega
  have hmax : (t + ENCODER_POSITION_RANGE) % U64 = t + 1000 := by
    rw [U64_eq]; simp only [ENCODER_POSITION_RANGE]; omega
  have key : ∀ x, in_range t x
      = (decide (t - 1000 ≤ x) && decide (x ≤ t + 1000)) := by
    intro x; simp only [in_range, hmin, hmax]
  refine ⟨?_, ?_, ?_, fun h => ?_, fun h => ?_⟩
  · simp [key, Bool.and_eq_true, decide_eq_true_eq]
  · simp only [key, Bool.and_eq_true, decide_eq_true_eq]
    omega
  · simp only [key, Bool.and_eq_true, decide_eq_true_eq]
    omega
  · rw [Bool.eq_false_iff]
    simp only [key, ne_eq, Bool.and_eq_true, decide_eq_true_eq, not_and, not_le]
    omega
  · rw [Bool.eq_false_iff]
    simp only [key, ne_eq, Bool.and_eq_true, decide_eq_true_eq, not_and, not_le]
    omega

/-- Witness for C4 (amended) at target 5000 and current position 5000. -/
theorem C4_in_range_window_witness :
    (in_range 5000 5000 = true ↔ (5000 - 1000 ≤ 5000 ∧ 5000 ≤ 5000 + 1000))
    ∧ in_range 5000 (5000 - 1000) = true
    ∧ in_range 5000 (5000 + 1000) = true
    ∧ (1001 ≤ 5000 → in_range 5000 (5000 - 1001) = false)
    ∧ (5000 + 1001 < U64 → in_range 5000 (5000 + 1001) = false) :=
  C4_in_range_window 5000 5000 (by norm_num) (by norm_num [U64]) (by norm_num [U64])

/-- C10: for every requested position strictly below 1000 the `u64` lower
bound `requested_pos - ENCODER_POSITION_RANGE` computed by `in_range`
underflows: the wrapped value is not the mathematical
`requested_pos - 1000` (a debug build would panic at the subtraction), and
consequently `in_range` rejects every current position inside the intended
`± 1000` window — the guard behaves as the tolerance window only under the
unstated precondition `requested_pos ≥ 1000`. -/
theorem C10_tolerance_underflow (t c : Nat) (ht : t < 1000) (hc : c ≤ t + 1000) :
    (((t + U64 - ENCODER_POSITION_RANGE) % U64 : Nat) : Int) ≠ (t : Int) - 1000
    ∧ in_range t c = false := by
  constructor
  · rw [U64_eq]; simp only [ENCODER_POSITION_RANGE]; omega
  · have h1 : ¬ ((t + U64 - ENCODER_POSITION_RANGE) % U64 ≤ c) := by
      rw [U64_eq]; simp only [ENCODER_POSITION_RANGE]; omega
    simp [in_range, h1]

/-- Witness for C10 at requested position 0 and current position 500. -/
theorem C10_tolerance_underflow_witness :
    (((0 + U64 - ENCODER_POSITION_RANGE) % U64 : Nat) : Int) ≠ (0 : Int) - 1000
    ∧ in_range 0 500 = false :=
  C10_tolerance_underflow 0 500 (by norm_num) (by norm_num)

/-- C1 (code bug): the decoder itself is exact — `get_servo_status` replaces
the status cache with the names of the set bits, in table order — but
`get_servo_alarms` pushes the decoded alarm names onto the STATUS cache
(`self.servo_status.push(name.to_string())`) and returns the freshly
emptied alarm cache.  At alarm raw value 1 with prior status cache
`[FAULT]`: the call returns `[]` instead of `["Position Limit Error"]`,
leaves the alarm cache empty, and appends the alarm name to the status
cache instead of leaving the status cache unchanged.  (For contrast, the
last conjunct shows `get_servo_status` replacing, not extending, the same
prior cache.)  The source's own comment says it is resetting the servo
alarm values, and the spec's design notes flag exactly this slip as a
defect not to replicate. -/
theorem C1_alarm_cache_bug :
    (get_servo_alarms TalarmOne statePriorStatus).1 = []
    ∧ ((get_servo_alarms TalarmOne statePriorStatus).2).servo_alarm = []
    ∧ ((get_servo_alarms TalarmOne statePriorStatus).2).servo_status
        = [FAULT, "Position Limit Error"]
    ∧ ((get_servo_status Tenabled statePriorStatus).2).servo_status
        = [MOTOR_ENABLED] :=
  ⟨rfl, rfl, by decide, by decide⟩

/-- C8 counterexample: a transport I/O error on a register read (`none`
from `read_holding_registers`) makes `get_register_value` panic through
`expect("IO Error")`, and an error on a write makes `write_register` panic
through `unwrap`.  The module installs no panic handler, so the panic
propagates out of the in-flight operation and kills the calling
process — construction is not the only operation that can abort it. -/
theorem C8_io_error_counterexample :
    get_register_value_io none = PanicOr.panicked ioErrorMsg
    ∧ write_register_io none = PanicOr.panicked unwrapErrMsg :=
  ⟨rfl, rfl⟩

/-- C8 (amended): a transport I/O error on a register read or write panics
the in-flight operation (`expect` / `unwrap`) — aborting the calling
process rather than surfacing an error to the caller — and it panics
exactly on transport errors: a successful transport answer never panics
(an empty but successful read silently becomes 0).  Only
`AppliedDevice::new` reports transport failure as a recoverable error. -/
theorem C8_io_error_panics :
    (∀ res : Option (List Nat),
      get_register_value_io res = PanicOr.panicked ioErrorMsg ↔ res = none)
    ∧ (∀ res : Option Unit,
      write_register_io res = PanicOr.panicked unwrapErrMsg ↔ res = none) := by
  constructor
  · intro res; cases res <;> simp [get_register_value_io]
  · intro res; cases res <;> simp [write_register_io]

/-- C9: `enable_motor` performs no register write when the freshly read
status already carries `Motor Enabled`, and otherwise writes exactly the
enable code 159 to the execute-command register; in both cases its only
transport read is the one status read — it never re-checks the status
after the write.  Symmetrically `disable_motor` writes the disable code
158 (after the same single status read) only when `Motor Enabled` is
present, and performs no write otherwise. -/
theorem C9_enable_disable_guard (T : Transport) (s : DevState) :
    ((get_servo_status T s).1.contains MOTOR_ENABLED = true →
        (enable_motor T s).writes = s.writes
        ∧ (enable_motor T s).reads = s.reads ++ [STATUS_REG]
        ∧ (disable_motor T s).writes = s.writes ++ [(EXECUTE_COMMAND, 158)]
        ∧ (disable_motor T s).reads = s.reads ++ [STATUS_REG])
    ∧ ((get_servo_status T s).1.contains MOTOR_ENABLED = false →
        (enable_motor T s).writes = s.writes ++ [(EXECUTE_COMMAND, 159)]
        ∧ (enable_motor T s).reads = s.reads ++ [STATUS_REG]
        ∧ (disable_motor T s).writes = s.writes
        ∧ (disable_motor T s).reads = s.reads ++ [STATUS_REG]) := by
  constructor <;> intro h <;>
    simp [get_servo_status, get_register_value] at h <;>
    refine ⟨?_, ?_, ?_, ?_⟩ <;>
      simp [enable_motor, disable_motor, h, write_register, sleep_ms,
        get_servo_status, get_register_value]

/-- Witness for C9: on a transport reporting `Motor Enabled` the enable
call writes nothing, and on an all-zero transport it writes exactly the
enable code while the disable call writes nothing. -/
theorem C9_enable_disable_guard_witness :
    (enable_motor Tenabled initState).writes = initState.writes
    ∧ (enable_motor Tzero initState).writes
        = initState.writes ++ [(EXECUTE_COMMAND, 159)]
    ∧ (disable_motor Tzero initState).writes = initState.writes := by
  have h1 := (C9_enable_disable_guard Tenabled initState).1 (by decide)
  have h2 := (C9_enable_disable_guard Tzero initState).2 (by decide)
  exact ⟨h1.1, h2.1, h2.2.2.1⟩

/-- `FrameStep` is reflexive. -/
theorem frameStep_rfl (s : DevState) : FrameStep s s :=
  ⟨rfl, le_refl _, List.prefix_refl _⟩

/-- `FrameStep` composes. -/
theorem frameStep_trans {s1 s2 s3 : DevState} (h1 : FrameStep s1 s2)
    (h2 : FrameStep s2 s3) : FrameStep s1 s3 :=
  ⟨h2.1.trans h1.1, le_trans h1.2.1 h2.2.1, h1.2.2.trans h2.2.2⟩

/-- `enable_motor` keeps the frame facts. -/
theorem frameStep_enable (T : Transport) (s : DevState) :
    FrameStep s (enable_motor T s) := by
  simp only [enable_motor]
  split
  · exact frameStep_rfl _
  · exact ⟨rfl, Nat.le_add_right _ _, List.prefix_refl _⟩

/-- `disable_motor` keeps the frame facts. -/
theorem frameStep_disable (T : Transport) (s : DevState) :
    FrameStep s (disable_motor T s) := by
  simp only [disable_motor]
  split
  · exact ⟨rfl, Nat.le_add_right _ _, List.prefix_refl _⟩
  · exact frameStep_rfl _

/-- The reset loop keeps the frame facts, whatever the transport answers:
induction on the remaining try budget `n`. -/
theorem resetLoop_frame (T : Transport) :
    ∀ n tc, 4 ≤ n + tc → ∀ a f s, FrameStep s (resetLoop T a f tc s) := by
  intro n
  induction n with
  | zero =>
    intro tc h a f s
    rw [resetLoop.eq_def]
    split
    · rw [dif_pos (by omega)]
      exact ⟨rfl, Nat.le_add_right _ _,
        ⟨[resetFoundWarn, resetFailWarn], by simp [sleep_ms, write_register]⟩⟩
    · exact frameStep_enable T s
  | succ n ih =>
    intro tc h a f s
    rw [resetLoop.eq_def]
    split
    · by_cases htc : tc > 2
      · rw [dif_pos htc]
        exact ⟨rfl, Nat.le_add_right _ _,
          ⟨[resetFoundWarn, resetFailWarn], by simp [sleep_ms, write_register]⟩⟩
      · rw [dif_neg htc]
        refine frameStep_trans ?_ (ih (tc + 1) (by omega) _ _ _)
        exact ⟨rfl, Nat.le_add_right _ _, ⟨[resetFoundWarn], rfl⟩⟩
    · exact frameStep_enable T s

/-- `reset_alarm_or_fault` keeps the frame facts. -/
theorem reset_frame (T : Transport) (s : DevState) :
    FrameStep s (reset_alarm_or_fault T s) := by
  simp only [reset_alarm_or_fault]
  split
  · exact frameStep_enable T _
  · exact resetLoop_frame T 4 0 (by omega) _ _ _

/-- A successful pass through the move poll loop keeps the frame facts:
induction on the fuel. -/
theorem moveLoop_frame (T : Transport) (start : Nat) :
    ∀ fuel s s1, moveLoop T start fuel s = some s1 → FrameStep s s1 := by
  intro fuel
  induction fuel with
  | zero => intro s s1 h; simp [moveLoop] at h
  | succ n ih =>
    intro s s1 h
    simp only [moveLoop] at h
    split at h
    · split at h
      · obtain rfl : _ = s1 := Option.some.inj h
        exact frameStep_trans (reset_frame T ((get_servo_status T s).2))
          ⟨rfl, le_refl _, List.prefix_refl _⟩
      · split at h
        · obtain rfl : _ = s1 := Option.some.inj h
          exact frameStep_trans (reset_frame T ((get_servo_status T s).2))
            ⟨rfl, le_refl _, ⟨[moveFailErr], rfl⟩⟩
        · refine frameStep_trans ?_ (ih _ s1 h)
          exact frameStep_trans (reset_frame T ((get_servo_status T s).2))
            ⟨rfl, Nat.le_add_right _ _, List.prefix_refl _⟩
    · obtain rfl : _ = s1 := Option.some.inj h
      exact ⟨rfl, le_refl _, List.prefix_refl _⟩

/-- The alarm-recovery block of the homing loop keeps the frame facts. -/
theorem frameStep_homeAlarmRestart (T : Transport) (s : DevState) :
    FrameStep s (homeAlarmRestart T s) := by
  refine frameStep_trans
    (⟨rfl, le_refl _, ⟨[homingAlarmWarn], rfl⟩⟩ :
      FrameStep s { s with warns := s.warns ++ [homingAlarmWarn] }) ?_
  refine frameStep_trans (reset_frame T _) ?_
  refine ⟨rfl, (Nat.le_add_right _ _).trans (Nat.le_add_right _ _), ?_⟩
  exact ⟨[homingRestartWarn], rfl⟩

/-- The homing poll-pass body keeps the frame facts. -/
theorem frameStep_homePollBody (T : Transport) (s : DevState) :
    FrameStep s (homePollBody T s) := by
  simp only [homePollBody]
  split
  · exact frameStep_trans
      (⟨rfl, le_refl _, List.prefix_refl _⟩ : FrameStep s
        ((get_servo_status T (get_servo_status T s).2).2))
      (frameStep_homeAlarmRestart T _)
  · exact ⟨rfl, le_refl _, List.prefix_refl _⟩

/-- A successful pass through the homing poll loop keeps the frame facts:
induction on the fuel. -/
theorem homeLoop_frame (T : Transport) (start : Nat) :
    ∀ fuel s s1, homeLoop T start fuel s = some s1 → FrameStep s s1 := by
  intro fuel
  induction fuel with
  | zero => intro s s1 h; simp [homeLoop] at h
  | succ n ih =>
    intro s s1 h
    simp only [homeLoop] at h
    split at h
    · split at h
      · obtain rfl : _ = s1 := Option.some.inj h
        refine frameStep_trans (frameStep_trans
          (⟨rfl, le_refl _, List.prefix_refl _⟩ : FrameStep s
            ((get_servo_status T s).2))
          (frameStep_homePollBody T _)) ?_
        exact ⟨rfl, le_refl _, ⟨[homingFailWarn], rfl⟩⟩
      · refine frameStep_trans ?_ (ih _ s1 h)
        refine frameStep_trans (frameStep_trans
          (⟨rfl, le_refl _, List.prefix_refl _⟩ : FrameStep s
            ((get_servo_status T s).2))
          (frameStep_homePollBody T _)) ?_
        exact ⟨rfl, Nat.le_add_right _ _, List.prefix_refl _⟩
    · obtain rfl : _ = s1 := Option.some.inj h
      exact ⟨rfl, le_refl _, List.prefix_refl _⟩

/-- Under a transport that always reports the `Alarm` flag, the reset loop
entered at `try_count = tc` (with `tc + k = 3`) writes the reset command
exactly `k + 1` times, performs `2 * k` further status reads, ends with the
give-up warning as the last log line, and never reaches `enable_motor`
(its writes are reset commands only, its reads status reads only). -/
theorem resetLoop_alarm_trace (T : Transport)
    (hA : ∀ c, (decode_flags STATUS_CODE_NAMES.enum
      ((T c STATUS_REG) % 65536)).contains ALARM = true) :
    ∀ k tc, tc + k = 3 → ∀ f s,
      (resetLoop T true f tc s).writes
        = s.writes ++ List.replicate (k + 1) (EXECUTE_COMMAND, 186)
      ∧ (resetLoop T true f tc s).reads
        = s.reads ++ List.replicate (2 * k) STATUS_REG
      ∧ (resetLoop T true f tc s).warns.getLast? = some resetFailWarn := by
  intro k
  induction k with
  | zero =>
    intro tc h f s
    rw [resetLoop.eq_def]
    simp only [Bool.true_or, if_true]
    rw [dif_pos (by omega)]
    refine ⟨?_, ?_, ?_⟩
    · simp [sleep_ms, write_register, List.replicate]
    · simp [sleep_ms, write_register]
    · simp [sleep_ms, write_register]
  | succ n ih =>
    intro tc h f s
    rw [resetLoop.eq_def]
    simp only [Bool.true_or, if_true]
    rw [dif_neg (by omega)]
    simp only [get_servo_status, get_register_value, hA]
    obtain ⟨hw, hr, hl⟩ := ih (tc + 1) (by omega) _ _
    refine ⟨?_, ?_, ?_⟩
    · rw [hw]
      simp [sleep_ms, write_register, List.replicate_succ, List.append_assoc]
    · rw [hr]
      simp [sleep_ms, write_register, show 2 * (n + 1) = 2 + 2 * n by ring,
        List.replicate_add, List.append_assoc, List.replicate_succ]
    · exact hl

/-- Under a transport that always reports the `Alarm` flag,
`reset_alarm_or_fault` writes the reset command exactly 4 times, performs
exactly 8 status reads (2 up front and 2 after each of the first 3 resets),
ends with the give-up warning last in the log, and never calls
`enable_motor` (no enable write, no further status read). -/
theorem reset_always_alarm_trace (T : Transport)
    (hA : ∀ c, (decode_flags STATUS_CODE_NAMES.enum
      ((T c STATUS_REG) % 65536)).contains ALARM = true) (s : DevState) :
    (reset_alarm_or_fault T s).writes
      = s.writes ++ List.replicate 4 (EXECUTE_COMMAND, 186)
    ∧ (reset_alarm_or_fault T s).reads
      = s.reads ++ List.replicate 8 STATUS_REG
    ∧ (reset_alarm_or_fault T s).warns.getLast? = some resetFailWarn := by
  simp only [reset_alarm_or_fault, get_servo_status, get_register_value, hA,
    Bool.not_true, Bool.false_and, Bool.false_eq_true, if_false]
  refine ⟨?_, ?_, ?_⟩
  · rw [(resetLoop_alarm_trace T hA 3 0 (by norm_num) _ _).1]
  · rw [(resetLoop_alarm_trace T hA 3 0 (by norm_num) _ _).2.1,
      List.append_assoc, List.append_assoc]
    rfl
  · exact (resetLoop_alarm_trace T hA 3 0 (by norm_num) _ _).2.2

/-- C2 counterexample: on a simulated transport that always reports the
`Alarm` flag, `reset_alarm_or_fault` issues 4 reset commands from a fresh
controller state — not the 3 the claim states.  (The source checks
`try_count > 2` only after writing, so the 4th write goes out before the
bound triggers.) -/
theorem C2_reset_three_counterexample :
    (reset_alarm_or_fault Talarm initState).writes.length = 4
    ∧ ¬ ((reset_alarm_or_fault Talarm initState).writes.length = 3) := by
  have hA : ∀ c, (decode_flags STATUS_CODE_NAMES.enum
      ((Talarm c STATUS_REG) % 65536)).contains ALARM = true := by
    intro c
    show (decode_flags STATUS_CODE_NAMES.enum
      ((512 : Nat) % 65536)).contains ALARM = true
    decide
  have h := (reset_always_alarm_trace Talarm hA initState).1
  rw [h]
  simp [initState]

/-- C2 (amended): if every status read reports the `Alarm` flag set,
`reset_alarm_or_fault` issues exactly 4 reset commands (writes of code 186
to the execute-command register) before giving up with a warning — the
`try_count > 2` check runs after the write, so a 4th reset goes out — and
never calls `enable_motor` in that run: its writes are exactly the 4 reset
commands and its reads exactly the 8 status reads of the entry check and
the first 3 loop passes. -/
theorem C2_reset_retry_bound (T : Transport) (s : DevState)
    (hA : ∀ c, (decode_flags STATUS_CODE_NAMES.enum
      ((T c STATUS_REG) % 65536)).contains ALARM = true) :
    (reset_alarm_or_fault T s).writes
      = s.writes ++ List.replicate 4 (EXECUTE_COMMAND, 186)
    ∧ (reset_alarm_or_fault T s).reads
      = s.reads ++ List.replicate 8 STATUS_REG
    ∧ (reset_alarm_or_fault T s).warns.getLast? = some resetFailWarn :=
  reset_always_alarm_trace T hA s

/-- Witness for C2 (amended) on the concrete always-alarm transport. -/
theorem C2_reset_retry_bound_witness :
    (reset_alarm_or_fault Talarm initState).writes
      = initState.writes ++ List.replicate 4 (EXECUTE_COMMAND, 186)
    ∧ (reset_alarm_or_fault Talarm initState).reads
      = initState.reads ++ List.replicate 8 STATUS_REG
    ∧ (reset_alarm_or_fault Talarm initState).warns.getLast?
      = some resetFailWarn :=
  C2_reset_retry_bound Talarm initState (fun c => by
    show (decode_flags STATUS_CODE_NAMES.enum
      ((512 : Nat) % 65536)).contains ALARM = true
    decide)

/-- C5 counterexample: target position 0 with the encoder reading 0 lies
inside the mathematical `± 1000` window, yet `move_servo` does not return
immediately and does not perform zero register writes: the underflowing
tolerance check answers false, so the call enables the motor (write 159),
writes the five motion-parameter registers and the move command — 7
register writes — and advances the clock by the settle delays. -/
theorem C5_move_window_counterexample :
    ((0 : Int) - 1000 ≤ (0 : Int) ∧ (0 : Int) ≤ (0 : Int) + 1000)
    ∧ ∃ s1, move_servo Tzero 0 0 0 0 1 initState = some s1
      ∧ s1.writes.length = 7
      ∧ ¬ (s1.writes = initState.writes)
      ∧ ¬ (s1.clock = initState.clock) := by
  refine ⟨by norm_num, _, rfl, ?_, ?_, ?_⟩ <;> decide

/-- C5 (amended): for every `move_servo` call whose target `p` satisfies
`1000 ≤ p` and `p + 1000 < 2 ^ 64` — the bounds under which the source's
tolerance check agrees with the `± 1000` window (see C4/C10) — and whose
current encoder reading lies within `p - 1000 ≤ current ≤ p + 1000`, the
operation performs zero register writes, returns immediately (no clock
advance) with exactly the state after the two encoder reads of the check,
and leaves the cycle counter unchanged, whatever the poll fuel. -/
theorem C5_move_in_window_noop (T : Transport)
    (accel decel velocity p fuel : Nat) (s : DevState)
    (hp1 : 1000 ≤ p) (hp2 : p + 1000 < U64)
    (hw : p - 1000 ≤ (get_encoder_count T s).1
      ∧ (get_encoder_count T s).1 ≤ p + 1000) :
    move_servo T accel decel velocity p fuel s = some ((in_range_op T s p).2)
    ∧ ((in_range_op T s p).2).writes = s.writes
    ∧ ((in_range_op T s p).2).clock = s.clock
    ∧ ((in_range_op T s p).2).servo_cycle_count = s.servo_cycle_count := by
  rw [U64_eq] at hp2
  have hmin : (p + U64 - ENCODER_POSITION_RANGE) % U64 = p - 1000 := by
    rw [U64_eq]; simp only [ENCODER_POSITION_RANGE]; omega
  have hmax : (p + ENCODER_POSITION_RANGE) % U64 = p + 1000 := by
    rw [U64_eq]; simp only [ENCODER_POSITION_RANGE]; omega
  have hr : in_range p ((get_encoder_count T s).1) = true := by
    generalize (get_encoder_count T s).1 = c at hw
    simp only [in_range, hmin, hmax, Bool.and_eq_true, decide_eq_true_eq]
    exact hw
  refine ⟨?_, rfl, rfl, rfl⟩
  simp [move_servo, in_range_op, hr]

/-- Witness for C5 (amended): encoder at 2000, target 2000 — inside the
window with the amended bounds satisfied, so the move is a no-op. -/
theorem C5_move_in_window_noop_witness :
    move_servo Tpos2000 1 2 3 2000 5 initState
      = some ((in_range_op Tpos2000 initState 2000).2)
    ∧ ((in_range_op Tpos2000 initState 2000).2).writes = initState.writes
    ∧ ((in_range_op Tpos2000 initState 2000).2).clock = initState.clock
    ∧ ((in_range_op Tpos2000 initState 2000).2).servo_cycle_count
      = initState.servo_cycle_count :=
  C5_move_in_window_noop Tpos2000 1 2 3 2000 5 initState (by norm_num)
    (by norm_num [U64]) (by decide)

/-- The cycle-counter effect of the move tail: plus one exactly when the
final re-check finds the encoder in range, unchanged otherwise. -/
theorem move_finish_cycle (T : Transport) (p : Nat) (s : DevState) :
    (move_finish T p s).servo_cycle_count
      = if (in_range_op T s p).1 then s.servo_cycle_count + 1
        else s.servo_cycle_count := by
  simp only [move_finish]
  cases hq : (in_range_op T s p).1 <;>
    simp [hq, in_range_op, get_encoder_count, get_register_value]

/-- A completed `move_servo` never decreases the cycle counter and raises
it by at most one. -/
theorem move_servo_cycle_bound (T : Transport)
    (a d v p fuel : Nat) (s s1 : DevState)
    (h : move_servo T a d v p fuel s = some s1) :
    s.servo_cycle_count ≤ s1.servo_cycle_count
    ∧ s1.servo_cycle_count ≤ s.servo_cycle_count + 1 := by
  simp only [move_servo] at h
  split at h
  · obtain rfl : _ = s1 := Option.some.inj h
    have e : ((in_range_op T s p).2).servo_cycle_count = s.servo_cycle_count :=
      rfl
    omega
  · split at h
    · exact absurd h (by simp)
    · obtain rfl : _ = s1 := Option.some.inj h
      rename_i s9 hml
      have e9 : s9.servo_cycle_count = s.servo_cycle_count :=
        (moveLoop_frame T _ fuel _ s9 hml).1.trans
          ((reset_frame T ((in_range_op T s p).2)).1.trans rfl)
      rw [move_finish_cycle T p s9]
      split <;> omega

/-- A completed `home_servo` leaves the cycle counter unchanged. -/
theorem home_servo_cycle (T : Transport) (fuel : Nat) (s s1 : DevState)
    (h : home_servo T fuel s = some s1) :
    s1.servo_cycle_count = s.servo_cycle_count := by
  simp only [home_servo] at h
  exact (homeLoop_frame T _ fuel _ s1 h).1.trans ((reset_frame T s).1)

/-- C6: `servo_cycle_count` never decreases across any controller
operation, and only a `move_servo` call can raise it — by exactly one, and
exactly when the final tolerance re-check (`move_finish`) finds the
encoder in range of the requested position; every other operation (status
and alarm reads, encoder and raw register reads, the tolerance check,
register writes, sleeps, enable/disable, fault reset, homing, the
fire-and-forget initialization, the shutdown handshake and the register
dump) leaves it exactly unchanged. -/
theorem C6_cycle_count_monotone :
    (∀ T s, ((get_servo_status T s).2).servo_cycle_count
      = s.servo_cycle_count)
    ∧ (∀ T s, ((get_servo_alarms T s).2).servo_cycle_count
      = s.servo_cycle_count)
    ∧ (∀ T s, ((get_encoder_count T s).2).servo_cycle_count
      = s.servo_cycle_count)
    ∧ (∀ T s r, ((get_register_value T s r).2).servo_cycle_count
      = s.servo_cycle_count)
    ∧ (∀ T s p, ((in_range_op T s p).2).servo_cycle_count
      = s.servo_cycle_count)
    ∧ (∀ s r v, (write_register s r v).servo_cycle_count
      = s.servo_cycle_count)
    ∧ (∀ s ms, (sleep_ms s ms).servo_cycle_count = s.servo_cycle_count)
    ∧ (∀ T s, (enable_motor T s).servo_cycle_count = s.servo_cycle_count)
    ∧ (∀ T s, (disable_motor T s).servo_cycle_count = s.servo_cycle_count)
    ∧ (∀ T s, (reset_alarm_or_fault T s).servo_cycle_count
      = s.servo_cycle_count)
    ∧ (∀ s, (initialise s).servo_cycle_count = s.servo_cycle_count)
    ∧ (∀ s, (shutdown s).servo_cycle_count = s.servo_cycle_count)
    ∧ (∀ s, (dump_registers s).servo_cycle_count = s.servo_cycle_count)
    ∧ (∀ T fuel s s1, home_servo T fuel s = some s1 →
        s1.servo_cycle_count = s.servo_cycle_count)
    ∧ (∀ T a d v p fuel s s1, move_servo T a d v p fuel s = some s1 →
        s.servo_cycle_count ≤ s1.servo_cycle_count
        ∧ s1.servo_cycle_count ≤ s.servo_cycle_count + 1)
    ∧ (∀ T p s, (move_finish T p s).servo_cycle_count
        = if (in_range_op T s p).1 then s.servo_cycle_count + 1
          else s.servo_cycle_count) := by
  refine ⟨fun T s => rfl, fun T s => rfl, fun T s => rfl, fun T s r => rfl,
    fun T s p => rfl, fun s r v => rfl, fun s ms => rfl,
    fun T s => (frameStep_enable T s).1, fun T s => (frameStep_disable T s).1,
    fun T s => (reset_frame T s).1, fun s => rfl, fun s => rfl, fun s => rfl,
    home_servo_cycle, move_servo_cycle_bound, move_finish_cycle⟩

/-- Witness for C6: a status read keeps the counter, and a completed
out-of-tolerance move keeps it within the stated bounds. -/
theorem C6_cycle_count_monotone_witness :
    ((get_servo_status Tzero initState).2).servo_cycle_count
      = initState.servo_cycle_count
    ∧ ∃ s1, move_servo Tzero 0 0 0 2000 1 initState = some s1
      ∧ initState.servo_cycle_count ≤ s1.servo_cycle_count
      ∧ s1.servo_cycle_count ≤ initState.servo_cycle_count + 1 := by
  obtain ⟨s1, hs⟩ : ∃ s1, move_servo Tzero 0 0 0 2000 1 initState = some s1 :=
    ⟨_, rfl⟩
  have hb := C6_cycle_count_monotone.2.2.2.2.2.2.2.2.2.2.2.2.2.2.1
    Tzero 0 0 0 2000 1 initState s1 hs
  exact ⟨C6_cycle_count_monotone.1 Tzero initState, s1, hs, hb.1, hb.2⟩

/-- One unfolding of the homing poll loop when the status read carries the
`Homing` flag. -/
theorem homeLoop_step (T : Transport) (start fuel : Nat) (s : DevState)
    (hH : (get_servo_status T s).1.contains HOMING = true) :
    homeLoop T start (fuel + 1) s =
      (if ((homePollBody T (get_servo_status T s).2).clock - start) / 1000
          > MAX_HOMING_TIME then
        some { homePollBody T (get_servo_status T s).2 with
          warns := (homePollBody T (get_servo_status T s).2).warns
            ++ [homingFailWarn] }
      else homeLoop T start fuel
        (sleep_ms (homePollBody T (get_servo_status T s).2) 300)) := by
  simp only [homeLoop]
  rw [if_pos hH]

/-- Under a transport that always reports the `Homing` flag, the homing
poll loop exits through the deadline branch: each pass advances the clock
by at least the 300ms poll sleep, so once the budget
`start + 61000 ≤ clock + 300 * k` holds and the fuel exceeds `k` the loop
returns, with the cycle counter untouched and the homing-failure warning
as the last log line. -/
theorem homeLoop_deadline_exit (T : Transport)
    (hH : ∀ c, (decode_flags STATUS_CODE_NAMES.enum
      ((T c STATUS_REG) % 65536)).contains HOMING = true) (start : Nat) :
    ∀ k s fuel, start + 61000 ≤ s.clock + 300 * k → k < fuel →
      ∃ s1, homeLoop T start fuel s = some s1
        ∧ s1.servo_cycle_count = s.servo_cycle_count
        ∧ s1.warns.getLast? = some homingFailWarn := by
  intro k
  induction k with
  | zero =>
    intro s fuel hclk hf
    obtain ⟨f, rfl⟩ : ∃ f, fuel = f + 1 := ⟨fuel - 1, by omega⟩
    rw [homeLoop_step T start f s (hH s.clock)]
    have hfs := frameStep_homePollBody T ((get_servo_status T s).2)
    have hclk2 : s.clock ≤ (homePollBody T ((get_servo_status T s).2)).clock :=
      hfs.2.1
    rw [if_pos (show ((homePollBody T ((get_servo_status T s).2)).clock - start)
        / 1000 > MAX_HOMING_TIME from by
      simp only [MAX_HOMING_TIME]; omega)]
    exact ⟨_, rfl, hfs.1.trans rfl, List.getLast?_concat _⟩
  | succ n ih =>
    intro s fuel hclk hf
    obtain ⟨f, rfl⟩ : ∃ f, fuel = f + 1 := ⟨fuel - 1, by omega⟩
    rw [homeLoop_step T start f s (hH s.clock)]
    have hfs := frameStep_homePollBody T ((get_servo_status T s).2)
    have hclk2 : s.clock ≤ (homePollBody T ((get_servo_status T s).2)).clock :=
      hfs.2.1
    by_cases hd : ((homePollBody T ((get_servo_status T s).2)).clock - start)
        / 1000 > MAX_HOMING_TIME
    · rw [if_pos hd]
      exact ⟨_, rfl, hfs.1.trans rfl, List.getLast?_concat _⟩
    · rw [if_neg hd]
      obtain ⟨s1, h1, h2, h3⟩ := ih
        (sleep_ms (homePollBody T ((get_servo_status T s).2)) 300) f
        (by
          show start + 61000 ≤
            (homePollBody T ((get_servo_status T s).2)).clock + 300 + 300 * n
          omega)
        (by omega)
      exact ⟨s1, h1, h2.trans (hfs.1.trans rfl), h3⟩

/-- C7: if the `Homing` status flag never clears, `home_servo` still
terminates: with poll fuel at least 205 — enough passes for the 300ms poll
sleep alone to push the elapsed time past the 60-second homing deadline —
the call returns through the deadline branch, logs the homing-failure
warning as its last log line, and leaves `servo_cycle_count` exactly as it
was. -/
theorem C7_homing_deadline (T : Transport) (fuel : Nat) (s : DevState)
    (hH : ∀ c, (decode_flags STATUS_CODE_NAMES.enum
      ((T c STATUS_REG) % 65536)).contains HOMING = true)
    (hfuel : 205 ≤ fuel) :
    ∃ s1, home_servo T fuel s = some s1
      ∧ s1.servo_cycle_count = s.servo_cycle_count
      ∧ s1.warns.getLast? = some homingFailWarn := by
  simp only [home_servo]
  obtain ⟨s1, h1, h2, h3⟩ := homeLoop_deadline_exit T hH
    (sleep_ms (write_register (sleep_ms (write_register
      (reset_alarm_or_fault T s) 125 1) 1000) EXECUTE_COMMAND 120) 1000).clock
    204
    (sleep_ms (write_register (sleep_ms (write_register
      (reset_alarm_or_fault T s) 125 1) 1000) EXECUTE_COMMAND 120) 1000)
    fuel (by omega) (by omega)
  exact ⟨s1, h1, h2.trans ((reset_frame T s).1), h3⟩

/-- Witness for C7 on the concrete homing-stuck transport with fuel 205. -/
theorem C7_homing_deadline_witness :
    ∃ s1, home_servo Thoming 205 initState = some s1
      ∧ s1.servo_cycle_count = initState.servo_cycle_count
      ∧ s1.warns.getLast? = some homingFailWarn :=
  C7_homing_deadline Thoming 205 initState (fun c => by
    show (decode_flags STATUS_CODE_NAMES.enum
      ((1024 : Nat) % 65536)).contains HOMING = true
    decide) (by norm_num)

end AppliedDevice
